import Mathlib

/-!
Verification development for the highseas sailing simulation core.

The definitions below are a shallow embedding of the TypeScript sources:
`src/models/WindModel.ts`, `src/store/useWindStore.ts`,
`src/components/world/Ocean.tsx` and `src/components/ships/Ship.tsx`.
JavaScript numbers are modelled as real numbers (rationals where only
rational constants occur); each call to `Math.random()` is modelled as an
explicit parameter in `[0,1)`; the `%` operator of JavaScript (remainder
with the sign of the dividend) is modelled by `jsRem` below.
-/

namespace HighSeas

open Real Filter

/-- Truncation toward zero, as JavaScript truncates the quotient when
evaluating `x % y`. -/
noncomputable def jsTrunc (r : ℝ) : ℤ := if 0 ≤ r then ⌊r⌋ else ⌈r⌉

/-- The JavaScript `%` operator on numbers: `x % y = x - y * trunc (x / y)`,
whose result carries the sign of the dividend `x`. -/
noncomputable def jsRem (x y : ℝ) : ℝ := x - y * jsTrunc (x / y)

/-- The 13-level Beaufort-style wind scale from `WindModel.ts`. -/
inductive WindStrength where
  | Calm
  | LightAir
  | LightBreeze
  | GentleBreeze
  | ModerateBreeze
  | FreshBreeze
  | StrongBreeze
  | NearGale
  | Gale
  | StrongGale
  | Storm
  | ViolentStorm
  | Hurricane
  deriving DecidableEq, BEq

/-- `Object.values(WindStrength)`: the scale as an ordered list, as used by
the strength step inside `updateWind`. -/
def strengths : List WindStrength :=
  [.Calm, .LightAir, .LightBreeze, .GentleBreeze, .ModerateBreeze, .FreshBreeze,
   .StrongBreeze, .NearGale, .Gale, .StrongGale, .Storm, .ViolentStorm, .Hurricane]

/-- `getWindSpeed` from `WindModel.ts`: the canonical knot value per category. -/
def getWindSpeed : WindStrength → ℚ
  | .Calm => 2
  | .LightAir => 5
  | .LightBreeze => 9
  | .GentleBreeze => 14
  | .ModerateBreeze => 19
  | .FreshBreeze => 25
  | .StrongBreeze => 31
  | .NearGale => 37
  | .Gale => 44
  | .StrongGale => 52
  | .Storm => 60
  | .ViolentStorm => 68
  | .Hurricane => 75

/-- `getAngleBetweenWindAndShip` from `WindModel.ts`.  Both angles are first
reduced with the JavaScript `%` operator (which keeps the dividend's sign),
then the absolute difference is folded once at `π`. -/
noncomputable def getAngleBetweenWindAndShip (shipHeading windDirection : ℝ) : ℝ :=
  let normShipHeading := jsRem shipHeading (2 * π)
  let normWindDirection := jsRem windDirection (2 * π)
  let angleDiff := |normShipHeading - normWindDirection|
  if angleDiff > π then 2 * π - angleDiff else angleDiff

/-- `getPointOfSailMultiplier` from `WindModel.ts`: step function of the
wind angle in degrees. -/
noncomputable def getPointOfSailMultiplier (angleBetweenWindAndShip : ℝ) : ℝ :=
  let angleDegrees := angleBetweenWindAndShip * (180 / π)
  if angleDegrees ≤ 30 then 0.1
  else if angleDegrees ≤ 60 then 0.5
  else if angleDegrees ≤ 90 then 0.7
  else if angleDegrees ≤ 120 then 1.0
  else if angleDegrees ≤ 150 then 0.9
  else 0.6

/-- `WindState` from `WindModel.ts`.  The direction is a real angle, the
other scalars only ever hold rational values. -/
structure WindState where
  direction : ℝ
  strength : WindStrength
  speedKnots : ℚ
  fluctuation : ℚ

/-- `randomInRange(min, max)` from `useWindStore.ts`, with the `Math.random()`
draw `r` made explicit. -/
def randomInRange (lo hi r : ℚ) : ℚ := r * (hi - lo) + lo

/-- `getRandomWindStrength` from `useWindStore.ts`, with the `Math.random()`
draw made explicit: the fixed non-uniform categorical distribution. -/
def getRandomWindStrength (rand : ℚ) : WindStrength :=
  if rand < 0.05 then .Calm
  else if rand < 0.15 then .LightAir
  else if rand < 0.3 then .LightBreeze
  else if rand < 0.5 then .GentleBreeze
  else if rand < 0.7 then .ModerateBreeze
  else if rand < 0.85 then .FreshBreeze
  else if rand < 0.92 then .StrongBreeze
  else if rand < 0.96 then .NearGale
  else if rand < 0.98 then .Gale
  else if rand < 0.99 then .StrongGale
  else if rand < 0.995 then .Storm
  else if rand < 0.998 then .ViolentStorm
  else .Hurricane

/-- The `initialState` of `useWindStore.ts`. -/
noncomputable def windInitialState : WindState :=
  { direction := 0
    strength := .ModerateBreeze
    speedKnots := getWindSpeed .ModerateBreeze
    fluctuation := 0.2 }

/-- `setDirection` action: stores the given direction verbatim. -/
def setDirection (direction : ℝ) (st : WindState) : WindState :=
  { st with direction := direction }

/-- `setStrength` action: stores the category and recomputes `speedKnots`. -/
def setStrength (strength : WindStrength) (st : WindState) : WindState :=
  { st with strength := strength, speedKnots := getWindSpeed strength }

/-- `setFluctuation` action: stores the given fluctuation verbatim. -/
def setFluctuation (fluctuation : ℚ) (st : WindState) : WindState :=
  { st with fluctuation := fluctuation }

/-- The strength step inside `updateWind` (executed when the inner
probability gate `Math.random() < 0.01` fires): `rand` drives the
decrease / increase / resample choice, `rResample` the possible resample. -/
def stepStrength (current : WindStrength) (rand rResample : ℚ) : WindStrength :=
  let currentIndex := strengths.indexOf current
  if rand < 0.35 ∧ 0 < currentIndex then
    strengths.getD (currentIndex - 1) current
  else if rand < 0.7 ∧ currentIndex < strengths.length - 1 then
    strengths.getD (currentIndex + 1) current
  else
    getRandomWindStrength rResample

/-- The body of `updateWind` executed when the outer fluctuation gate fires:
the direction perturbation (wrapped by the JS `%` operator at `2π`) and,
when `rGate < 0.01`, the strength step; `speedKnots` is recomputed from the
resulting strength. -/
noncomputable def updateWindStep (st : WindState) (rChange rGate rStep rResample : ℚ) :
    WindState :=
  let directionChange := randomInRange (-0.05) 0.05 rChange * st.fluctuation
  let newDirection := jsRem (st.direction + (directionChange : ℝ)) (2 * π)
  let newStrength :=
    if rGate < 0.01 then stepStrength st.strength rStep rResample else st.strength
  { st with direction := newDirection
            strength := newStrength
            speedKnots := getWindSpeed newStrength }

/-- `randomizeWind` from `useWindStore.ts`.  Note the source calls
`getRandomWindStrength()` twice — once for `strength` (draw `rS1`) and
independently once more inside `getWindSpeed(...)` (draw `rS2`). -/
noncomputable def randomizeWind (st : WindState) (rDir rS1 rS2 rFluct : ℚ) : WindState :=
  { st with direction := (rDir : ℝ) * π * 2
            strength := getRandomWindStrength rS1
            speedKnots := getWindSpeed (getRandomWindStrength rS2)
            fluctuation := randomInRange 0.1 0.4 rFluct }

/-! ### Ship dynamics (`Ship.tsx`, `ShipTypes.ts`, `Ocean.tsx`) -/

/-- Three.js `Vector3`, restricted to the operations the ship physics uses. -/
structure V3 where
  x : ℝ
  y : ℝ
  z : ℝ

/-- Component-wise vector addition (`Vector3.add`). -/
noncomputable def V3.add (a b : V3) : V3 := ⟨a.x + b.x, a.y + b.y, a.z + b.z⟩

/-- Component-wise vector subtraction (`Vector3.sub`). -/
noncomputable def V3.sub (a b : V3) : V3 := ⟨a.x - b.x, a.y - b.y, a.z - b.z⟩

/-- Scalar multiple (`Vector3.multiplyScalar`). -/
noncomputable def V3.smul (c : ℝ) (v : V3) : V3 := ⟨c * v.x, c * v.y, c * v.z⟩

/-- Dot product (`Vector3.dot`). -/
noncomputable def V3.dot (a b : V3) : ℝ := a.x * b.x + a.y * b.y + a.z * b.z

/-- Euclidean length (`Vector3.length`). -/
noncomputable def V3.len (v : V3) : ℝ := Real.sqrt (v.dot v)

/-- The zero vector. -/
noncomputable def V3.zero : V3 := ⟨0, 0, 0⟩

/-- `Vector3.normalize`: divide by the length.  (The only vectors normalized
by the modelled code are unit vectors, so the zero/length-0 corner of the
JavaScript semantics is unreachable.) -/
noncomputable def vnormalize (v : V3) : V3 := V3.smul (v.len)⁻¹ v

/-- `Vector3.projectOnPlane(n)`: subtract the projection on the normal. -/
noncomputable def projectOnPlane (v n : V3) : V3 :=
  v.sub (V3.smul (v.dot n / n.dot n) n)

/-- `windDirectionToVector` from `WindModel.ts`. -/
noncomputable def windDirectionToVector (direction : ℝ) : V3 :=
  vnormalize ⟨Real.cos direction, 0, Real.sin direction⟩

/-- Rotation about the world `y` axis (what `applyAxisAngle((0,1,0), θ)` and
`Matrix4.makeRotationY(θ)` perform on a vector). -/
noncomputable def rotY (θ : ℝ) (v : V3) : V3 :=
  ⟨Real.cos θ * v.x + Real.sin θ * v.z, v.y, -Real.sin θ * v.x + Real.cos θ * v.z⟩

/-- The ship's forward direction: `(0,0,-1)` rotated by the ship heading. -/
noncomputable def forwardDir (rotation : ℝ) : V3 := rotY rotation ⟨0, 0, -1⟩

/-- The fields of `ShipStats` (`ShipTypes.ts`) that the modelled physics
reads. -/
structure ShipStats where
  speed : ℝ
  maneuverability : ℝ
  cargoCapacity : ℝ
  displacement : ℝ
  draft : ℝ

/-- The `Sloop` row of `SHIP_STATS`. -/
noncomputable def sloopStats : ShipStats :=
  { speed := 8, maneuverability := 9, cargoCapacity := 40, displacement := 150,
    draft := 2.5 }

/-- `ShipDamage` from `ShipTypes.ts`. -/
structure ShipDamage where
  hullIntegrity : ℝ
  sailIntegrity : ℝ
  mastIntegrity : ℝ
  rudderIntegrity : ℝ

/-- The directional input booleans from `useControls`. -/
structure Inputs where
  forward : Bool
  backward : Bool
  left : Bool
  right : Bool

/-- `sailEfficiency = damage.sailIntegrity * damage.mastIntegrity`
(`Ship.tsx` line 257). -/
noncomputable def sailEfficiency (damage : ShipDamage) : ℝ :=
  damage.sailIntegrity * damage.mastIntegrity

/-- `calculateBuoyancyForce` from `Ship.tsx`: `waveHeight` is the sampled
wave height at the point's world x/z and `pointY` the point's world `y`
coordinate (the geometric transform of the hull point is supplied by the
environment).  The force is vertical, proportional to depth and
displacement, and scaled by `hullIntegrity`. -/
noncomputable def calculateBuoyancyForce (displacement hullIntegrity waveHeight pointY : ℝ) :
    V3 :=
  let depth := waveHeight - pointY
  if depth < 0 then V3.zero
  else ⟨0, depth * 1.0 * (displacement / 1000) * 9.8 * hullIntegrity, 0⟩

/-- The per-frame accumulation of buoyancy forces over the ship's buoyancy
sample points; each sample supplies `(waveHeight, worldY)`. -/
noncomputable def totalBuoyancy (displacement hullIntegrity : ℝ)
    (samples : List (ℝ × ℝ)) : V3 :=
  samples.foldl
    (fun acc s => acc.add (calculateBuoyancyForce displacement hullIntegrity s.1 s.2))
    V3.zero

/-- The horizontal speed cap at the end of the velocity update: the `x`/`z`
components are rescaled to `maxSpeed` when they exceed it, `y` is kept. -/
noncomputable def capHorizontal (maxSpeed : ℝ) (v : V3) : V3 :=
  let h := Real.sqrt (v.x ^ 2 + v.z ^ 2)
  if h > maxSpeed then ⟨v.x / h * maxSpeed, v.y, v.z / h * maxSpeed⟩ else v

/-- The velocity part of the `useFrame` body of `Ship.tsx` (active phase):
thrust and wind drift when moving forward, manual reverse thrust, drag with
headwind penalty, buoyancy and gravity (vertical), and the horizontal speed
cap.  `rotation` is the heading at the start of the frame (the in-frame
rudder update is applied to the stored rotation for the next frame, not to
the direction vectors of the current one). -/
noncomputable def velocityTick (stats : ShipStats) (damage : ShipDamage)
    (windDirection speedKnots : ℝ) (inp : Inputs) (rotation dt : ℝ)
    (buoy : V3) (v : V3) : V3 :=
  let fwdDir := forwardDir rotation
  let maxAcceleration := 5 * (stats.speed / 10)
  let baseDrag := (0.95 : ℝ)
  let realisticSpeedFactor := (0.3 : ℝ)
  let angleBetweenWindAndShip := getAngleBetweenWindAndShip rotation windDirection
  let pointOfSailMultiplier := getPointOfSailMultiplier angleBetweenWindAndShip
  let sailEff := sailEfficiency damage
  let windVector := windDirectionToVector windDirection
  let windForce := speedKnots * 0.01
  let finalAcceleration :=
    maxAcceleration * dt * pointOfSailMultiplier * sailEff * realisticSpeedFactor
  let v1 :=
    if inp.forward then
      let windEffect := windForce * pointOfSailMultiplier * sailEff * realisticSpeedFactor
      let windDrift := projectOnPlane windVector fwdDir
      let lateralDriftFactor := 0.2 * (10 / stats.cargoCapacity) * realisticSpeedFactor
      (v.add (V3.smul finalAcceleration fwdDir)).add
        (V3.smul (windEffect * lateralDriftFactor) windDrift)
    else v
  let v2 :=
    if inp.backward then
      v1.add (V3.smul (-maxAcceleration * 0.2 * dt * realisticSpeedFactor) fwdDir)
    else v1
  let headwindFactor :=
    if angleBetweenWindAndShip < π / 2 then
      0.98 + 0.04 * (1 - angleBetweenWindAndShip / (π / 2))
    else (0.98 : ℝ)
  let finalDrag := min (baseDrag * headwindFactor) 0.99
  let v3 := V3.smul finalDrag v2
  let v4 := v3.add (V3.smul (0.01 * dt) buoy)
  let v5 : V3 := ⟨v4.x, v4.y - 0.05 * dt, v4.z⟩
  let maxSpeed := (stats.speed / 10) * (1 + pointOfSailMultiplier * 0.5) * realisticSpeedFactor
  capHorizontal maxSpeed v5

/-- The rudder handling of `Ship.tsx`: each branch computes its new heading
from the heading at the start of the frame (React state updates are
batched), so when both keys are held the `right` branch wins. -/
noncomputable def rudderUpdate (stats : ShipStats) (damage : ShipDamage) (inp : Inputs)
    (dt rotation : ℝ) : ℝ :=
  let rotationSpeed := 1.5 * (stats.maneuverability / 10) * dt
  let afterLeft :=
    if inp.left then rotation + rotationSpeed * damage.rudderIntegrity else rotation
  if inp.right then rotation - rotationSpeed * damage.rudderIntegrity else afterLeft

/-- `sinkDepth` (`Ship.tsx` line 408): the visual sink depth from hull
damage. -/
noncomputable def sinkDepth (hullIntegrity : ℝ) : ℝ := (1 - hullIntegrity) * 0.4

/-- The per-frame parameters of a ship (fixed across the frames we iterate). -/
structure FrameParams where
  stats : ShipStats
  damage : ShipDamage
  windDirection : ℝ
  speedKnots : ℝ
  inp : Inputs
  dt : ℝ
  oceanPresent : Bool

/-- The environment data one frame reads: the wave height at the ship (used
while settling) and the `(waveHeight, worldY)` pair for each buoyancy sample
point (their world positions are geometry computed outside the modelled
core). -/
structure EnvSample where
  waveHeightAtShip : ℝ
  buoyancySamples : List (ℝ × ℝ)

/-- The mutable per-ship state the `useFrame` body maintains. -/
structure ShipState where
  settled : Bool
  settleTime : ℝ
  posY : ℝ
  rotation : ℝ
  velocity : V3

/-- The full-physics part of the frame (everything after the settling
branch): rudder update, velocity update, position integration. -/
noncomputable def fullStep (p : FrameParams) (env : EnvSample) (st : ShipState) :
    ShipState :=
  let newRotation := rudderUpdate p.stats p.damage p.inp p.dt st.rotation
  let buoy := totalBuoyancy p.stats.displacement p.damage.hullIntegrity env.buoyancySamples
  let newVelocity :=
    velocityTick p.stats p.damage p.windDirection p.speedKnots p.inp st.rotation p.dt
      buoy st.velocity
  { st with rotation := newRotation
            velocity := newVelocity
            posY := st.posY + newVelocity.y }

/-- One `useFrame` callback of `Ship.tsx`.  While not settled, the timer is
advanced and — when the ocean is present — the ship is snapped to the water
and the callback returns early (the settled flag flips once the timer
exceeds 0.5 s); without an ocean the code falls through to full physics.
Once settled, the full physics step runs. -/
noncomputable def shipFrame (p : FrameParams) (env : EnvSample) (st : ShipState) :
    ShipState :=
  if st.settled = false then
    let t' := st.settleTime + p.dt
    if p.oceanPresent then
      { st with settleTime := t'
                posY := env.waveHeightAtShip - 0.3 * p.stats.draft / 10
                settled := if t' > 0.5 then true else st.settled }
    else fullStep p env { st with settleTime := t' }
  else fullStep p env st

/-- Iterated frames: state after `n` frames from `st0`, with per-frame
environment samples `env`. -/
noncomputable def simSeq (p : FrameParams) (env : ℕ → EnvSample) (st0 : ShipState) :
    ℕ → ShipState
  | 0 => st0
  | n + 1 => shipFrame p (env n) (simSeq p env st0 n)

/-- Horizontal speed of a velocity vector (the quantity the speed cap and
the terminal-speed property are about). -/
noncomputable def hSpeed (v : V3) : ℝ := Real.sqrt (v.x ^ 2 + v.z ^ 2)

/-! ### Ocean wave-field sampling (`Ocean.tsx`) -/

/-- `WAVE_RESOLUTION` from `Ocean.tsx`. -/
def WAVE_RESOLUTION : ℕ := 40

/-- The grid-index computation of `scene.userData.ocean.getWaveHeight`:
normalize into the fixed 100-unit extent, floor into grid coordinates,
clamp each coordinate into `[0, WAVE_RESOLUTION - 1]`, and form the row
major index. -/
noncomputable def oceanGridIndex (x z : ℝ) : ℕ :=
  let gridSize : ℝ := 100
  let halfSize := gridSize / 2
  let normalizedX := (x + halfSize) / gridSize
  let normalizedZ := (z + halfSize) / gridSize
  let gridX : ℤ := ⌊normalizedX * (WAVE_RESOLUTION : ℝ)⌋
  let gridZ : ℤ := ⌊normalizedZ * (WAVE_RESOLUTION : ℝ)⌋
  let clampedX := max 0 (min ((WAVE_RESOLUTION : ℤ) - 1) gridX)
  let clampedZ := max 0 (min ((WAVE_RESOLUTION : ℤ) - 1) gridZ)
  (clampedZ * (WAVE_RESOLUTION : ℤ) + clampedX).toNat

/-- `getWaveHeight` of the ocean object: look the clamped index up in the
stored height map (`none` would model the out-of-bounds `undefined` of a
JavaScript array read). -/
noncomputable def oceanGetWaveHeight (waveHeightMap : List ℝ) (x z : ℝ) : Option ℝ :=
  waveHeightMap.get? (oceanGridIndex x z)

/-- The `getWaveHeight` helper of `Ship.tsx`: delegate to the ocean's query
when the ocean has been attached to the scene, and fall back to `0`
otherwise. -/
noncomputable def shipGetWaveHeight (ocean : Option (ℝ → ℝ → ℝ)) (x z : ℝ) : ℝ :=
  match ocean with
  | some f => f x z
  | none => 0

/-! ### Concrete scenario used for the terminal-speed and heading claims:
a Sloop in a ModerateBreeze blowing along direction 0, heading `5π/9`
(100° off the wind — the optimal point of sail band), frame time 1/60 s. -/

/-- Undamaged ship. -/
noncomputable def fullDamage : ShipDamage :=
  { hullIntegrity := 1, sailIntegrity := 1, mastIntegrity := 1, rudderIntegrity := 1 }

/-- Hull integrity halved. -/
noncomputable def hullHalfDamage : ShipDamage :=
  { hullIntegrity := 1 / 2, sailIntegrity := 1, mastIntegrity := 1, rudderIntegrity := 1 }

/-- Sail integrity halved. -/
noncomputable def sailHalfDamage : ShipDamage :=
  { hullIntegrity := 1, sailIntegrity := 1 / 2, mastIntegrity := 1, rudderIntegrity := 1 }

/-- Mast integrity halved. -/
noncomputable def mastHalfDamage : ShipDamage :=
  { hullIntegrity := 1, sailIntegrity := 1, mastIntegrity := 1 / 2, rudderIntegrity := 1 }

/-- Rudder integrity halved. -/
noncomputable def rudderHalfDamage : ShipDamage :=
  { hullIntegrity := 1, sailIntegrity := 1, mastIntegrity := 1, rudderIntegrity := 1 / 2 }

/-- Parameters of the sailing scenario: forward held, no turn input. -/
noncomputable def scenParams (damage : ShipDamage) : FrameParams :=
  { stats := sloopStats, damage := damage, windDirection := 0, speedKnots := 19,
    inp := ⟨true, false, false, false⟩, dt := 1 / 60, oceanPresent := true }

/-- Initial state of the sailing scenario: settled, at rest, heading `5π/9`. -/
noncomputable def scenState : ShipState :=
  { settled := true, settleTime := 1, posY := 0, rotation := 5 * π / 9,
    velocity := V3.zero }

/-- Frame iteration of the sailing scenario. -/
noncomputable def scenSeq (damage : ShipDamage) (env : ℕ → EnvSample) (n : ℕ) :
    ShipState :=
  simSeq (scenParams damage) env scenState n

/-- A trivial environment: flat water, no buoyancy samples. -/
noncomputable def envZero : ℕ → EnvSample := fun _ => ⟨0, []⟩

/-- The per-frame force direction constants of the scenario: `scenCx`/`scenCz`
are the x/z components of the per-frame velocity increment for sail
efficiency 1 (thrust along the forward vector plus lateral wind drift). -/
noncomputable def scenCx : ℝ :=
  -(1 / 50) * Real.sin (5 * π / 9) + 171 / 200000 * (1 - Real.sin (5 * π / 9) ^ 2)

/-- The z component of the unit-efficiency per-frame velocity increment. -/
noncomputable def scenCz : ℝ :=
  -(1 / 50) * Real.cos (5 * π / 9) +
    171 / 200000 * (-(Real.sin (5 * π / 9) * Real.cos (5 * π / 9)))

/-- The terminal horizontal speed of the scenario as a function of sail
efficiency `s`: the fixed point of `v ↦ drag * (v + s * increment)` with
drag `0.931`. -/
noncomputable def scenTerminal (s : ℝ) : ℝ :=
  931 / 69 * (s * Real.sqrt ((1 / 50) ^ 2 + (171 / 200000) ^ 2 * Real.cos (5 * π / 9) ^ 2))

/-- Parameters of the turning scenario: only the left-turn input held. -/
noncomputable def turnParams : FrameParams :=
  { stats := sloopStats, damage := fullDamage, windDirection := 0, speedKnots := 19,
    inp := ⟨false, false, true, false⟩, dt := 1 / 60, oceanPresent := true }

/-- Initial state of the turning scenario: settled, heading 0. -/
noncomputable def turnState : ShipState :=
  { settled := true, settleTime := 1, posY := 0, rotation := 0, velocity := V3.zero }

/-- Frame iteration of the turning scenario. -/
noncomputable def turnSeq (env : ℕ → EnvSample) (n : ℕ) : ShipState :=
  simSeq turnParams env turnState n

/-! ## Theorems -/

theorem jsRem_mem_Ico (x y : ℝ) (hy : 0 < y) (hx : 0 ≤ x) : jsRem x y ∈ Set.Ico 0 y := by
  have hq : 0 ≤ x / y := div_nonneg hx hy.le
  have hx' : x = x / y * y := (div_mul_cancel₀ x hy.ne').symm
  have h1 : ((⌊x / y⌋ : ℤ) : ℝ) ≤ x / y := Int.floor_le _
  have h2 : x / y < ⌊x / y⌋ + 1 := Int.lt_floor_add_one _
  unfold jsRem jsTrunc
  rw [if_pos hq]
  constructor
  · nlinarith [mul_nonneg (sub_nonneg.mpr h1) hy.le]
  · nlinarith [mul_pos hy (by linarith : (0 : ℝ) < (⌊x / y⌋ : ℝ) + 1 - x / y)]

theorem jsRem_mem_Ioc_of_neg (x y : ℝ) (hy : 0 < y) (hx : x < 0) :
    jsRem x y ∈ Set.Ioc (-y) 0 := by
  have hq : x / y < 0 := div_neg_of_neg_of_pos hx hy
  have hx' : x = x / y * y := (div_mul_cancel₀ x hy.ne').symm
  have h1 : x / y ≤ ((⌈x / y⌉ : ℤ) : ℝ) := Int.le_ceil _
  have h2 : ((⌈x / y⌉ : ℤ) : ℝ) < x / y + 1 := Int.ceil_lt_add_one _
  unfold jsRem jsTrunc
  rw [if_neg (not_le.mpr hq)]
  constructor
  · nlinarith [mul_pos hy (by linarith : (0 : ℝ) < x / y + 1 - (⌈x / y⌉ : ℝ))]
  · nlinarith [mul_nonneg (sub_nonneg.mpr h1) hy.le]

theorem jsRem_mem_Ioo (x y : ℝ) (hy : 0 < y) : jsRem x y ∈ Set.Ioo (-y) y := by
  rcases lt_or_le x 0 with hx | hx
  · obtain ⟨h1, h2⟩ := jsRem_mem_Ioc_of_neg x y hy hx
    exact ⟨h1, lt_of_le_of_lt h2 hy⟩
  · obtain ⟨h1, h2⟩ := jsRem_mem_Ico x y hy hx
    exact ⟨lt_of_lt_of_le (neg_lt_zero.mpr hy) h1, h2⟩

theorem jsRem_eq_self (x y : ℝ) (hy : 0 < y) (h0 : 0 ≤ x) (h1 : x < y) :
    jsRem x y = x := by
  have hq0 : 0 ≤ x / y := div_nonneg h0 hy.le
  have hq1 : x / y < 1 := (div_lt_one hy).mpr h1
  unfold jsRem jsTrunc
  rw [if_pos hq0, Int.floor_eq_zero_iff.mpr ⟨hq0, hq1⟩]
  push_cast
  ring

theorem jsRem_eq_self_of_neg (x y : ℝ) (hy : 0 < y) (h0 : x < 0) (h1 : -y < x) :
    jsRem x y = x := by
  have hq : x / y < 0 := div_neg_of_neg_of_pos h0 hy
  have hq1 : -1 < x / y := by
    rw [lt_div_iff₀ hy]
    linarith
  unfold jsRem jsTrunc
  rw [if_neg (not_le.mpr hq), Int.ceil_eq_zero_iff.mpr ⟨hq1, hq.le⟩]
  push_cast
  ring

theorem two_pi_pos : (0 : ℝ) < 2 * π := by positivity

/-- C1: in `randomizeWind` the strength stored and the strength whose speed
is stored come from two independent `Math.random()` draws; with draws
`0.01` (→ `Calm`) and `0.999` (→ `Hurricane`) the resulting state has
`strength = Calm` but `speedKnots = 75 ≠ getWindSpeed Calm = 2`, violating
the speed/strength invariant.  `setStrength` and the `updateWind` strength
step do keep the invariant; the double draw in `randomizeWind` is the slip. -/
theorem randomizeWind_speedKnots_desync :
    (randomizeWind windInitialState (1 / 2) (1 / 100) (999 / 1000) (1 / 2)).strength
        = WindStrength.Calm ∧
    (randomizeWind windInitialState (1 / 2) (1 / 100) (999 / 1000) (1 / 2)).speedKnots
        = 75 ∧
    getWindSpeed WindStrength.Calm = 2 ∧
    (randomizeWind windInitialState (1 / 2) (1 / 100) (999 / 1000) (1 / 2)).speedKnots ≠
      getWindSpeed
        (randomizeWind windInitialState (1 / 2) (1 / 100) (999 / 1000) (1 / 2)).strength := by
  have h1 : getRandomWindStrength (1 / 100) = WindStrength.Calm := by
    unfold getRandomWindStrength
    rw [if_pos (by norm_num)]
  have h2 : getRandomWindStrength (999 / 1000) = WindStrength.Hurricane := by
    unfold getRandomWindStrength
    rw [if_neg (by norm_num), if_neg (by norm_num), if_neg (by norm_num),
      if_neg (by norm_num), if_neg (by norm_num), if_neg (by norm_num),
      if_neg (by norm_num), if_neg (by norm_num), if_neg (by norm_num),
      if_neg (by norm_num), if_neg (by norm_num), if_neg (by norm_num)]
  refine ⟨?_, ?_, rfl, ?_⟩
  · show getRandomWindStrength (1 / 100) = WindStrength.Calm
    exact h1
  · show getWindSpeed (getRandomWindStrength (999 / 1000)) = 75
    rw [h2]
    rfl
  · show getWindSpeed (getRandomWindStrength (999 / 1000)) ≠
      getWindSpeed (getRandomWindStrength (1 / 100))
    rw [h1, h2]
    decide

/-- C2 (counterexample): starting from the initial state (direction `0`,
fluctuation `0.2`) with direction draw `0` the perturbation is `-0.01`, and
the JavaScript `%` leaves the stored direction at `-0.01 ∉ [0, 2π)`. -/
theorem updateWind_direction_negative :
    (updateWindStep windInitialState 0 1 0 0).direction = -(1 / 100) ∧
    (updateWindStep windInitialState 0 1 0 0).direction ∉ Set.Ico 0 (2 * π) := by
  have hc : randomInRange (-0.05) 0.05 0 * (windInitialState.fluctuation : ℚ)
      = -(1 / 100) := by
    norm_num [randomInRange, windInitialState]
  have hval : (updateWindStep windInitialState 0 1 0 0).direction = -(1 / 100) := by
    show jsRem (windInitialState.direction +
        ((randomInRange (-0.05) 0.05 0 * windInitialState.fluctuation : ℚ) : ℝ)) (2 * π)
      = -(1 / 100)
    rw [hc]
    have h3 : (3 : ℝ) < π := Real.pi_gt_three
    have : windInitialState.direction = 0 := rfl
    rw [this]
    push_cast
    rw [show (0 : ℝ) + -(1 / 100) = -(1 / 100) by ring]
    exact jsRem_eq_self_of_neg _ _ two_pi_pos (by norm_num) (by nlinarith)
  refine ⟨hval, ?_⟩
  rw [hval]
  rintro ⟨h, -⟩
  nlinarith [Real.pi_gt_three]

/-- C2 (amended): after the direction perturbation inside `updateWind`, the
stored direction lies in the open interval `(-2π, 2π)` — the JavaScript `%`
keeps the dividend's sign, so negative perturbed directions land in
`(-2π, 0]` rather than being wrapped into `[0, 2π)`. -/
theorem updateWind_direction_range (st : WindState) (rChange rGate rStep rResample : ℚ) :
    (updateWindStep st rChange rGate rStep rResample).direction
      ∈ Set.Ioo (-(2 * π)) (2 * π) := by
  show jsRem _ (2 * π) ∈ Set.Ioo (-(2 * π)) (2 * π)
  exact jsRem_mem_Ioo _ _ two_pi_pos

/-- C3 (counterexample): `setFluctuation` stores an out-of-range value
verbatim — the core performs no `[0,1]` clamping at read or write time. -/
theorem setFluctuation_stores_unclamped :
    (setFluctuation 5 windInitialState).fluctuation = 5 ∧
    (5 : ℚ) ∉ Set.Icc (0 : ℚ) 1 := by
  refine ⟨rfl, ?_⟩
  rw [Set.mem_Icc]
  rintro ⟨-, h⟩
  norm_num at h

/-- C3 (amended): the core does not clamp or wrap externally supplied
scalars: `setFluctuation` and `setDirection` store their arguments
verbatim, the stored fluctuation is used unclamped by the wind update (with
fluctuation 5 a single perturbation moves the direction by `0.25` radians,
five times the documented `|change| ≤ 0.05` bound), and `sailEfficiency`
multiplies the damage components as given. -/
theorem core_reads_unclamped :
    (setFluctuation 5 windInitialState).fluctuation = 5 ∧
    (setDirection 7 windInitialState).direction = 7 ∧
    (updateWindStep (setFluctuation 5 windInitialState) 1 1 0 0).direction = 1 / 4 ∧
    sailEfficiency ⟨1, 2, 3, 1⟩ = 6 := by
  refine ⟨rfl, rfl, ?_, ?_⟩
  · have hc : randomInRange (-0.05) 0.05 1 * ((setFluctuation 5 windInitialState).fluctuation : ℚ)
        = 1 / 4 := by
      norm_num [randomInRange, setFluctuation, windInitialState]
    show jsRem ((setFluctuation 5 windInitialState).direction +
        ((randomInRange (-0.05) 0.05 1 *
          (setFluctuation 5 windInitialState).fluctuation : ℚ) : ℝ)) (2 * π) = 1 / 4
    rw [hc]
    have : (setFluctuation 5 windInitialState).direction = 0 := rfl
    rw [this]
    push_cast
    rw [show (0 : ℝ) + 1 / 4 = 1 / 4 by ring]
    exact jsRem_eq_self _ _ two_pi_pos (by norm_num) (by nlinarith [Real.pi_gt_three])
  · show (2 : ℝ) * 3 = 6
    norm_num

/-- C5 (counterexample): at the bottom of the scale a draw below 0.35 does
not leave the strength clamped at `Calm` — the guard `currentIndex > 0`
fails and control falls through to the increase branch, so the strength
moves up to `LightAir`. -/
theorem stepStrength_low_end_not_clamped :
    stepStrength WindStrength.Calm (1 / 10) 0 = WindStrength.LightAir ∧
    WindStrength.LightAir ≠ WindStrength.Calm := by
  constructor
  · have hidx : strengths.indexOf WindStrength.Calm = 0 := rfl
    simp only [stepStrength, hidx]
    rw [if_neg (by norm_num), if_pos (by constructor <;> norm_num [strengths])]
    rfl
  · decide

/-- C5 (amended): the strength step moves one category down on a draw below
0.35 and one category up on a draw in `[0.35, 0.7)` at interior categories,
and resamples on a draw `≥ 0.7`; but at the scale ends the guards fall
through instead of clamping: at the lowest category a draw below 0.35 moves
one category *up*, and at the highest category a draw in `[0.35, 0.7)`
*resamples*.  The strength is never wrapped around the scale. -/
theorem stepStrength_cases (s : WindStrength) (rand rResample : ℚ) :
    (rand < 0.35 → 0 < strengths.indexOf s →
      stepStrength s rand rResample = strengths.getD (strengths.indexOf s - 1) s) ∧
    (rand < 0.35 → strengths.indexOf s = 0 →
      stepStrength s rand rResample = strengths.getD 1 s) ∧
    (0.35 ≤ rand → rand < 0.7 → strengths.indexOf s < 12 →
      stepStrength s rand rResample = strengths.getD (strengths.indexOf s + 1) s) ∧
    (0.35 ≤ rand → rand < 0.7 → strengths.indexOf s = 12 →
      stepStrength s rand rResample = getRandomWindStrength rResample) ∧
    (0.7 ≤ rand → stepStrength s rand rResample = getRandomWindStrength rResample) := by
  have hlen : strengths.length = 13 := rfl
  refine ⟨?_, ?_, ?_, ?_, ?_⟩
  · intro hr hi
    simp only [stepStrength]
    rw [if_pos ⟨hr, hi⟩]
  · intro hr hi
    simp only [stepStrength]
    rw [if_neg (fun hc => by rw [hi] at hc; exact absurd hc.2 (by norm_num)),
      if_pos ⟨by linarith [(by norm_num : (0.35 : ℚ) < 0.7)], by rw [hi, hlen]; norm_num⟩,
      hi]
  · intro h1 h2 h3
    simp only [stepStrength]
    rw [if_neg (fun hc => absurd hc.1 (not_lt.mpr h1)),
      if_pos ⟨h2, by rw [hlen]; omega⟩]
  · intro h1 h2 h3
    simp only [stepStrength]
    rw [if_neg (fun hc => absurd hc.1 (not_lt.mpr h1)),
      if_neg (fun hc => by rw [h3, hlen] at hc; exact absurd hc.2 (by norm_num))]
  · intro h1
    simp only [stepStrength]
    rw [if_neg (fun hc => absurd hc.1 (not_lt.mpr (by linarith [(by norm_num : (0.35 : ℚ) < 0.7)]))),
      if_neg (fun hc => absurd hc.1 (not_lt.mpr h1))]

/-- Witness for `stepStrength_cases` at the lowest category with a
down-draw. -/
theorem stepStrength_cases_witness :
    (1 / 10 : ℚ) < 0.35 ∧ strengths.indexOf WindStrength.Calm = 0 ∧
    stepStrength WindStrength.Calm (1 / 10) 0 = strengths.getD 1 WindStrength.Calm :=
  ⟨by norm_num, rfl,
    (stepStrength_cases WindStrength.Calm (1 / 10) 0).2.1 (by norm_num) rfl⟩

/-- C7: the wave-height query clamps the derived grid indices into the grid
for every real input coordinate, so it always returns a stored cell value,
and the ship-side helper returns the neutral value `0` when no ocean has
been attached yet. -/
theorem getWaveHeight_total (m : List ℝ) (x z : ℝ) (hm : m.length = 1600) :
    oceanGridIndex x z < m.length ∧
    (∃ h, oceanGetWaveHeight m x z = some h ∧ h ∈ m) ∧
    shipGetWaveHeight none x z = 0 := by
  have hidx : oceanGridIndex x z < 1600 := by
    simp only [oceanGridIndex, WAVE_RESOLUTION]
    have h1 : (0 : ℤ) ≤ max 0 (min ((40 : ℤ) - 1) ⌊(x + 100 / 2) / 100 * ((40 : ℕ) : ℝ)⌋) :=
      le_max_left _ _
    have h2 : max 0 (min ((40 : ℤ) - 1) ⌊(x + 100 / 2) / 100 * ((40 : ℕ) : ℝ)⌋) ≤ 39 :=
      max_le (by norm_num) (le_trans (min_le_left _ _) (by norm_num))
    have h3 : (0 : ℤ) ≤ max 0 (min ((40 : ℤ) - 1) ⌊(z + 100 / 2) / 100 * ((40 : ℕ) : ℝ)⌋) :=
      le_max_left _ _
    have h4 : max 0 (min ((40 : ℤ) - 1) ⌊(z + 100 / 2) / 100 * ((40 : ℕ) : ℝ)⌋) ≤ 39 :=
      max_le (by norm_num) (le_trans (min_le_left _ _) (by norm_num))
    omega
  have hidx' : oceanGridIndex x z < m.length := hm ▸ hidx
  exact ⟨hidx', ⟨m.get ⟨oceanGridIndex x z, hidx'⟩, List.get?_eq_get hidx',
    List.get_mem m _ hidx'⟩, rfl⟩

/-- Witness for `getWaveHeight_total` on a 1600-cell map at a point far
outside the field's extent. -/
theorem getWaveHeight_total_witness :
    (List.replicate 1600 (0 : ℝ)).length = 1600 ∧
    (∃ h, oceanGetWaveHeight (List.replicate 1600 (0 : ℝ)) 123456 (-987654) = some h ∧
      h ∈ List.replicate 1600 (0 : ℝ)) := by
  have hm : (List.replicate 1600 (0 : ℝ)).length = 1600 := List.length_replicate 1600 0
  exact ⟨hm, (getWaveHeight_total _ 123456 (-987654) hm).2.1⟩

/-- C4 (counterexample): mixed-sign inputs break the `[0, π]` bound: for
heading `3π/2` and wind direction `-3π/2` the JS `%` keeps the negative
sign, the absolute difference is `3π`, and the single fold at `π` returns
`2π - 3π = -π < 0`. -/
theorem angleBetween_negative_at :
    getAngleBetweenWindAndShip (3 * π / 2) (-(3 * π / 2)) = -π ∧
    ¬ (0 ≤ getAngleBetweenWindAndShip (3 * π / 2) (-(3 * π / 2))) := by
  have hpi := Real.pi_pos
  have ha : jsRem (3 * π / 2) (2 * π) = 3 * π / 2 :=
    jsRem_eq_self _ _ two_pi_pos (by positivity) (by nlinarith)
  have hb : jsRem (-(3 * π / 2)) (2 * π) = -(3 * π / 2) :=
    jsRem_eq_self_of_neg _ _ two_pi_pos (by nlinarith) (by nlinarith)
  have hval : getAngleBetweenWindAndShip (3 * π / 2) (-(3 * π / 2)) = -π := by
    simp only [getAngleBetweenWindAndShip]
    rw [ha, hb, show 3 * π / 2 - -(3 * π / 2) = 3 * π by ring,
      abs_of_pos (by positivity), if_pos (by nlinarith)]
    ring
  exact ⟨hval, by rw [hval]; intro h; nlinarith⟩

/-- C4 (amended): `getAngleBetweenWindAndShip` is symmetric for all real
pairs, and its value lies in `[0, π]` whenever both inputs are nonnegative
(then both JS remainders land in `[0, 2π)`); for mixed-sign inputs the
bound can fail. -/
theorem angleBetween_symm_bounded (a b : ℝ) :
    getAngleBetweenWindAndShip a b = getAngleBetweenWindAndShip b a ∧
    (0 ≤ a → 0 ≤ b → getAngleBetweenWindAndShip a b ∈ Set.Icc 0 π) := by
  constructor
  · simp only [getAngleBetweenWindAndShip]
    rw [abs_sub_comm]
  · intro ha hb
    obtain ⟨ha0, ha1⟩ := jsRem_mem_Ico a (2 * π) two_pi_pos ha
    obtain ⟨hb0, hb1⟩ := jsRem_mem_Ico b (2 * π) two_pi_pos hb
    simp only [getAngleBetweenWindAndShip]
    have hd0 : 0 ≤ |jsRem a (2 * π) - jsRem b (2 * π)| := abs_nonneg _
    have hd2 : |jsRem a (2 * π) - jsRem b (2 * π)| < 2 * π :=
      abs_sub_lt_iff.mpr ⟨by linarith, by linarith⟩
    split_ifs with h
    · exact ⟨by linarith, by linarith⟩
    · exact ⟨hd0, by linarith [not_lt.mp h]⟩

/-- Witness for `angleBetween_symm_bounded` at the nonnegative pair `(1, 2)`. -/
theorem angleBetween_symm_bounded_witness :
    getAngleBetweenWindAndShip 1 2 = getAngleBetweenWindAndShip 2 1 ∧
    getAngleBetweenWindAndShip 1 2 ∈ Set.Icc 0 π :=
  ⟨(angleBetween_symm_bounded 1 2).1,
    (angleBetween_symm_bounded 1 2).2 (by norm_num) (by norm_num)⟩

/-- C8: with the ocean present, every frame of the settling phase leaves the
linear velocity untouched (the callback returns before any integration),
the settled flag flips exactly when the accumulated time passes 0.5 s, and
on every frame that starts settled the velocity is produced by the full
integration step. -/
theorem settling_suspends_velocity (p : FrameParams) (env : EnvSample) (st : ShipState)
    (hoc : p.oceanPresent = true) :
    (st.settled = false →
      (shipFrame p env st).velocity = st.velocity ∧
      ((shipFrame p env st).settled = true ↔ st.settleTime + p.dt > 0.5)) ∧
    (st.settled = true →
      (shipFrame p env st).velocity =
        velocityTick p.stats p.damage p.windDirection p.speedKnots p.inp st.rotation p.dt
          (totalBuoyancy p.stats.displacement p.damage.hullIntegrity env.buoyancySamples)
          st.velocity) := by
  constructor
  · intro hs
    have hframe : shipFrame p env st =
        { st with settleTime := st.settleTime + p.dt,
                  posY := env.waveHeightAtShip - 0.3 * p.stats.draft / 10,
                  settled := if st.settleTime + p.dt > 0.5 then true else st.settled } := by
      simp only [shipFrame]
      rw [if_pos hs, if_pos hoc]
    rw [hframe]
    refine ⟨rfl, ?_⟩
    show (if st.settleTime + p.dt > 0.5 then true else st.settled) = true ↔
      st.settleTime + p.dt > 0.5
    split_ifs with h
    · simp [h]
    · rw [hs]
      simp [h]
  · intro hs
    simp only [shipFrame, hs]
    rw [if_neg (by simp)]
    rfl

/-- Witness for `settling_suspends_velocity`: one settling frame that
crosses the 0.5 s mark keeps the velocity and flips the settled flag. -/
theorem settling_suspends_velocity_witness :
    (shipFrame (scenParams fullDamage) (⟨0, []⟩ : EnvSample)
        (⟨false, 49 / 100, 0, 0, V3.zero⟩ : ShipState)).velocity
      = (⟨false, 49 / 100, 0, 0, V3.zero⟩ : ShipState).velocity ∧
    (shipFrame (scenParams fullDamage) (⟨0, []⟩ : EnvSample)
        (⟨false, 49 / 100, 0, 0, V3.zero⟩ : ShipState)).settled = true := by
  have h := (settling_suspends_velocity (scenParams fullDamage) ⟨0, []⟩
      ⟨false, 49 / 100, 0, 0, V3.zero⟩ rfl).1 rfl
  refine ⟨h.1, h.2.mpr ?_⟩
  show (49 / 100 : ℝ) + (scenParams fullDamage).dt > 0.5
  norm_num [scenParams]

/-- C10: the per-tick rudder update adds or subtracts exactly
`rotationSpeed * rudderIntegrity` and never reduces the heading modulo
`2π`; under a sustained left turn the Sloop's heading is exactly
`n * 9/400` after `n` frames — growing without bound and leaving `[0, 2π)`
— and this raw heading is what the frame feeds to the wind-angle
computation. -/
theorem heading_unbounded_unwrapped :
    (∀ stats damage dt θ,
      rudderUpdate stats damage ⟨false, false, true, false⟩ dt θ
        = θ + 1.5 * (stats.maneuverability / 10) * dt * damage.rudderIntegrity) ∧
    (∀ stats damage dt θ,
      rudderUpdate stats damage ⟨false, false, false, true⟩ dt θ
        = θ - 1.5 * (stats.maneuverability / 10) * dt * damage.rudderIntegrity) ∧
    (∀ env n, (turnSeq env n).rotation = 9 / 400 * n) ∧
    (∀ M : ℝ, ∃ n : ℕ, (turnSeq envZero n).rotation > M) ∧
    (∃ n : ℕ, (turnSeq envZero n).rotation ∉ Set.Ico 0 (2 * π)) := by
  have hstep : ∀ env st, st.settled = true →
      (shipFrame turnParams env st).settled = true ∧
      (shipFrame turnParams env st).rotation = st.rotation + 9 / 400 := by
    intro env st hs
    simp only [shipFrame, hs]
    rw [if_neg (by simp)]
    constructor
    · show (fullStep turnParams env st).settled = true
      exact hs
    · show (fullStep turnParams env st).rotation = st.rotation + 9 / 400
      show rudderUpdate turnParams.stats turnParams.damage turnParams.inp turnParams.dt
          st.rotation = st.rotation + 9 / 400
      simp only [rudderUpdate, turnParams, sloopStats, fullDamage]
      norm_num
  have hrot : ∀ env n, (turnSeq env n).rotation = 9 / 400 * n ∧
      (turnSeq env n).settled = true := by
    intro env n
    induction n with
    | zero => exact ⟨by simp [turnSeq, simSeq, turnState], rfl⟩
    | succ n ih =>
      have h := hstep (env n) (turnSeq env n) ih.2
      have hs : turnSeq env (n + 1) = shipFrame turnParams (env n) (turnSeq env n) := rfl
      refine ⟨?_, hs ▸ h.1⟩
      rw [hs, h.2, ih.1]
      push_cast
      ring
  refine ⟨?_, ?_, fun env n => (hrot env n).1, ?_, ?_⟩
  · intro stats damage dt θ
    simp [rudderUpdate]
  · intro stats damage dt θ
    simp [rudderUpdate]
  · intro M
    obtain ⟨n, hn⟩ := exists_nat_gt (M * 400 / 9)
    refine ⟨n, ?_⟩
    rw [(hrot envZero n).1]
    nlinarith
  · refine ⟨2800, ?_⟩
    rw [(hrot envZero 2800).1]
    rintro ⟨-, hlt⟩
    push_cast at hlt
    nlinarith [Real.pi_lt_d2]

theorem calculateBuoyancyForce_x (displacement hullIntegrity waveHeight pointY : ℝ) :
    (calculateBuoyancyForce displacement hullIntegrity waveHeight pointY).x = 0 := by
  simp only [calculateBuoyancyForce]
  split <;> rfl

theorem calculateBuoyancyForce_z (displacement hullIntegrity waveHeight pointY : ℝ) :
    (calculateBuoyancyForce displacement hullIntegrity waveHeight pointY).z = 0 := by
  simp only [calculateBuoyancyForce]
  split <;> rfl

theorem totalBuoyancy_horizontal (displacement hullIntegrity : ℝ)
    (samples : List (ℝ × ℝ)) :
    (totalBuoyancy displacement hullIntegrity samples).x = 0 ∧
    (totalBuoyancy displacement hullIntegrity samples).z = 0 := by
  suffices h : ∀ (l : List (ℝ × ℝ)) (acc : V3), acc.x = 0 → acc.z = 0 →
      (l.foldl (fun acc s =>
        acc.add (calculateBuoyancyForce displacement hullIntegrity s.1 s.2)) acc).x = 0 ∧
      (l.foldl (fun acc s =>
        acc.add (calculateBuoyancyForce displacement hullIntegrity s.1 s.2)) acc).z = 0 by
    exact h samples V3.zero rfl rfl
  intro l
  induction l with
  | nil => intro acc h1 h2; exact ⟨h1, h2⟩
  | cons s rest ih =>
    intro acc h1 h2
    apply ih
    · show acc.x + (calculateBuoyancyForce displacement hullIntegrity s.1 s.2).x = 0
      rw [h1, calculateBuoyancyForce_x]
      ring
    · show acc.z + (calculateBuoyancyForce displacement hullIntegrity s.1 s.2).z = 0
      rw [h2, calculateBuoyancyForce_z]
      ring

theorem capHorizontal_of_le (m : ℝ) (v : V3)
    (h : Real.sqrt (v.x ^ 2 + v.z ^ 2) ≤ m) : capHorizontal m v = v := by
  simp only [capHorizontal]
  rw [if_neg (not_lt.mpr h)]

theorem scen_angle : getAngleBetweenWindAndShip (5 * π / 9) 0 = 5 * π / 9 := by
  have hpi := Real.pi_pos
  simp only [getAngleBetweenWindAndShip]
  rw [jsRem_eq_self (5 * π / 9) _ two_pi_pos (by positivity) (by nlinarith),
    jsRem_eq_self 0 _ two_pi_pos le_rfl two_pi_pos, sub_zero,
    abs_of_nonneg (by positivity), if_neg (by push_neg; nlinarith)]

theorem scen_pos : getPointOfSailMultiplier (5 * π / 9) = 1 := by
  have hne := Real.pi_ne_zero
  simp only [getPointOfSailMultiplier]
  have h100 : 5 * π / 9 * (180 / π) = 100 := by
    field_simp
    ring
  rw [h100, if_neg (by norm_num), if_neg (by norm_num), if_neg (by norm_num),
    if_pos (by norm_num)]
  norm_num

theorem scen_windVec : windDirectionToVector 0 = ⟨1, 0, 0⟩ := by
  simp only [windDirectionToVector, vnormalize, V3.len, V3.dot, V3.smul,
    Real.cos_zero, Real.sin_zero]
  norm_num

theorem scen_fwd :
    forwardDir (5 * π / 9) = ⟨-Real.sin (5 * π / 9), 0, -Real.cos (5 * π / 9)⟩ := by
  simp only [forwardDir, rotY]
  norm_num

theorem scen_drift :
    projectOnPlane ⟨1, 0, 0⟩ ⟨-Real.sin (5 * π / 9), 0, -Real.cos (5 * π / 9)⟩
      = ⟨1 - Real.sin (5 * π / 9) ^ 2, 0,
          -(Real.sin (5 * π / 9) * Real.cos (5 * π / 9))⟩ := by
  have h : Real.sin (5 * π / 9) ^ 2 + Real.cos (5 * π / 9) ^ 2 = 1 :=
    Real.sin_sq_add_cos_sq _
  simp only [projectOnPlane, V3.sub, V3.smul, V3.dot]
  have hn : -Real.sin (5 * π / 9) * -Real.sin (5 * π / 9) + 0 * 0 +
      -Real.cos (5 * π / 9) * -Real.cos (5 * π / 9) = 1 := by
    linear_combination h
  rw [hn]
  simp only [V3.mk.injEq]
  refine ⟨by ring, by ring, by ring⟩

theorem scenCsq : scenCx ^ 2 + scenCz ^ 2
    = (1 / 50) ^ 2 + (171 / 200000) ^ 2 * Real.cos (5 * π / 9) ^ 2 := by
  have h : Real.sin (5 * π / 9) ^ 2 + Real.cos (5 * π / 9) ^ 2 = 1 :=
    Real.sin_sq_add_cos_sq _
  simp only [scenCx, scenCz]
  linear_combination ((1 / 50 : ℝ) ^ 2 +
    2 * (1 / 50) * (171 / 200000) * Real.sin (5 * π / 9) -
    (171 / 200000) ^ 2 * (1 - Real.sin (5 * π / 9) ^ 2)) * h

theorem scen_tick_eval (damage : ShipDamage) (buoy : V3) (hbx : buoy.x = 0)
    (hbz : buoy.z = 0) (v : V3) :
    velocityTick sloopStats damage 0 19 ⟨true, false, false, false⟩ (5 * π / 9) (1 / 60)
        buoy v
      = capHorizontal (9 / 25)
          ⟨931 / 1000 * (v.x + sailEfficiency damage * scenCx),
           931 / 1000 * v.y + 1 / 6000 * buoy.y - 1 / 1200,
           931 / 1000 * (v.z + sailEfficiency damage * scenCz)⟩ := by
  have hpi := Real.pi_pos
  have hhead : ¬(5 * π / 9 < π / 2) := by nlinarith
  have hmin : min ((0.95 : ℝ) * 0.98) 0.99 = 931 / 1000 := by
    rw [min_eq_left (by norm_num)]
    norm_num
  simp only [velocityTick, scen_angle, scen_pos, scen_windVec, scen_fwd, scen_drift,
    sloopStats]
  rw [if_neg hhead, hmin]
  simp only [V3.add, V3.smul, Bool.false_eq_true, if_false, if_true]
  congr 1
  · norm_num
  · simp only [V3.mk.injEq]
    rw [hbx, hbz]
    simp only [scenCx, scenCz, sailEfficiency]
    refine ⟨by ring, by ring, by ring⟩

set_option maxHeartbeats 400000 in
theorem scen_step (damage : ShipDamage) (hs0 : 0 ≤ sailEfficiency damage)
    (hs1 : sailEfficiency damage ≤ 1) (buoy : V3) (hbx : buoy.x = 0) (hbz : buoy.z = 0)
    (v : V3) (a : ℝ) (ha0 : 0 ≤ a) (ha1 : a ≤ 1)
    (hvx : v.x = a * (931 / 69 * (sailEfficiency damage * scenCx)))
    (hvz : v.z = a * (931 / 69 * (sailEfficiency damage * scenCz))) :
    (velocityTick sloopStats damage 0 19 ⟨true, false, false, false⟩ (5 * π / 9) (1 / 60)
        buoy v).x
      = (1 - 931 / 1000 * (1 - a)) * (931 / 69 * (sailEfficiency damage * scenCx)) ∧
    (velocityTick sloopStats damage 0 19 ⟨true, false, false, false⟩ (5 * π / 9) (1 / 60)
        buoy v).z
      = (1 - 931 / 1000 * (1 - a)) * (931 / 69 * (sailEfficiency damage * scenCz)) := by
  rw [scen_tick_eval damage buoy hbx hbz v]
  have hwx : 931 / 1000 * (v.x + sailEfficiency damage * scenCx)
      = (1 - 931 / 1000 * (1 - a)) * (931 / 69 * (sailEfficiency damage * scenCx)) := by
    rw [hvx]; ring
  have hwz : 931 / 1000 * (v.z + sailEfficiency damage * scenCz)
      = (1 - 931 / 1000 * (1 - a)) * (931 / 69 * (sailEfficiency damage * scenCz)) := by
    rw [hvz]; ring
  have hb0 : (0 : ℝ) ≤ 1 - 931 / 1000 * (1 - a) := by linarith
  have hb1 : 1 - 931 / 1000 * (1 - a) ≤ 1 := by linarith
  have hcos1 : Real.cos (5 * π / 9) ^ 2 ≤ 1 := Real.cos_sq_le_one _
  have hcos0 : 0 ≤ Real.cos (5 * π / 9) ^ 2 := sq_nonneg _
  have hsq : (931 / 1000 * (v.x + sailEfficiency damage * scenCx)) ^ 2 +
      (931 / 1000 * (v.z + sailEfficiency damage * scenCz)) ^ 2 ≤ (9 / 25) ^ 2 := by
    rw [hwx, hwz]
    have key : ((1 - 931 / 1000 * (1 - a)) * (931 / 69 * (sailEfficiency damage * scenCx))) ^ 2 +
        ((1 - 931 / 1000 * (1 - a)) * (931 / 69 * (sailEfficiency damage * scenCz))) ^ 2
        = ((1 - 931 / 1000 * (1 - a)) * sailEfficiency damage) ^ 2 *
            ((931 / 69) ^ 2 * (scenCx ^ 2 + scenCz ^ 2)) := by
      ring
    rw [key, scenCsq]
    have hbs0 : 0 ≤ (1 - 931 / 1000 * (1 - a)) * sailEfficiency damage :=
      mul_nonneg hb0 hs0
    have hbs1 : (1 - 931 / 1000 * (1 - a)) * sailEfficiency damage ≤ 1 := by nlinarith
    have hbs2 : ((1 - 931 / 1000 * (1 - a)) * sailEfficiency damage) ^ 2 ≤ 1 := by nlinarith
    calc ((1 - 931 / 1000 * (1 - a)) * sailEfficiency damage) ^ 2 *
          ((931 / 69) ^ 2 * ((1 / 50) ^ 2 + (171 / 200000) ^ 2 * Real.cos (5 * π / 9) ^ 2))
        ≤ 1 * ((931 / 69) ^ 2 * ((1 / 50) ^ 2 + (171 / 200000) ^ 2 * 1)) := by
          apply mul_le_mul hbs2 _ (by positivity) (by norm_num)
          gcongr
      _ ≤ (9 / 25) ^ 2 := by norm_num
  have hsqrt : Real.sqrt ((931 / 1000 * (v.x + sailEfficiency damage * scenCx)) ^ 2 +
      (931 / 1000 * (v.z + sailEfficiency damage * scenCz)) ^ 2) ≤ 9 / 25 :=
    le_trans (Real.sqrt_le_sqrt hsq) (le_of_eq (Real.sqrt_sq (by norm_num)))
  rw [capHorizontal_of_le (9 / 25)
    ⟨931 / 1000 * (v.x + sailEfficiency damage * scenCx),
     931 / 1000 * v.y + 1 / 6000 * buoy.y - 1 / 1200,
     931 / 1000 * (v.z + sailEfficiency damage * scenCz)⟩ hsqrt]
  exact ⟨hwx, hwz⟩

theorem scen_closed (damage : ShipDamage) (hs0 : 0 ≤ sailEfficiency damage)
    (hs1 : sailEfficiency damage ≤ 1) (env : ℕ → EnvSample) (n : ℕ) :
    (scenSeq damage env n).settled = true ∧
    (scenSeq damage env n).rotation = 5 * π / 9 ∧
    (scenSeq damage env n).velocity.x
      = (1 - (931 / 1000 : ℝ) ^ n) * (931 / 69 * (sailEfficiency damage * scenCx)) ∧
    (scenSeq damage env n).velocity.z
      = (1 - (931 / 1000 : ℝ) ^ n) * (931 / 69 * (sailEfficiency damage * scenCz)) := by
  induction n with
  | zero =>
    refine ⟨rfl, rfl, ?_, ?_⟩ <;> simp [scenSeq, simSeq, scenState, V3.zero]
  | succ n ih =>
    obtain ⟨ihs, ihr, ihx, ihz⟩ := ih
    have hd0 : (0 : ℝ) ≤ (931 / 1000 : ℝ) ^ n := by positivity
    have hd1 : ((931 : ℝ) / 1000) ^ n ≤ 1 :=
      pow_le_one₀ (by norm_num) (by norm_num)
    have ha0 : (0 : ℝ) ≤ 1 - (931 / 1000 : ℝ) ^ n := by linarith
    have ha1 : (1 : ℝ) - (931 / 1000 : ℝ) ^ n ≤ 1 := by linarith
    have hb := totalBuoyancy_horizontal (scenParams damage).stats.displacement
      (scenParams damage).damage.hullIntegrity ((env n).buoyancySamples)
    have hstep := scen_step damage hs0 hs1 _ hb.1 hb.2 (scenSeq damage env n).velocity
      (1 - (931 / 1000 : ℝ) ^ n) ha0 ha1 ihx ihz
    have hcoef : ∀ c : ℝ, (1 - 931 / 1000 * (1 - (1 - (931 / 1000 : ℝ) ^ n))) * c
        = (1 - (931 / 1000 : ℝ) ^ (n + 1)) * c := by
      intro c
      rw [pow_succ]
      ring
    have hnext : scenSeq damage env (n + 1)
        = shipFrame (scenParams damage) (env n) (scenSeq damage env n) := rfl
    have hframe : shipFrame (scenParams damage) (env n) (scenSeq damage env n)
        = fullStep (scenParams damage) (env n) (scenSeq damage env n) := by
      simp only [shipFrame, ihs]
      rw [if_neg (by simp)]
    rw [hnext, hframe]
    refine ⟨ihs, ?_, ?_, ?_⟩
    · show rudderUpdate (scenParams damage).stats (scenParams damage).damage
        (scenParams damage).inp (scenParams damage).dt (scenSeq damage env n).rotation
        = 5 * π / 9
      exact ihr
    · show (velocityTick sloopStats damage 0 19 ⟨true, false, false, false⟩
          (scenSeq damage env n).rotation (1 / 60)
          (totalBuoyancy (scenParams damage).stats.displacement
            (scenParams damage).damage.hullIntegrity ((env n).buoyancySamples))
          (scenSeq damage env n).velocity).x
        = (1 - (931 / 1000 : ℝ) ^ (n + 1)) * (931 / 69 * (sailEfficiency damage * scenCx))
      rw [ihr, ← hcoef]
      exact hstep.1
    · show (velocityTick sloopStats damage 0 19 ⟨true, false, false, false⟩
          (scenSeq damage env n).rotation (1 / 60)
          (totalBuoyancy (scenParams damage).stats.displacement
            (scenParams damage).damage.hullIntegrity ((env n).buoyancySamples))
          (scenSeq damage env n).velocity).z
        = (1 - (931 / 1000 : ℝ) ^ (n + 1)) * (931 / 69 * (sailEfficiency damage * scenCz))
      rw [ihr, ← hcoef]
      exact hstep.2

theorem scen_speed (damage : ShipDamage) (hs0 : 0 ≤ sailEfficiency damage)
    (hs1 : sailEfficiency damage ≤ 1) (env : ℕ → EnvSample) (n : ℕ) :
    hSpeed (scenSeq damage env n).velocity
      = (1 - (931 / 1000 : ℝ) ^ n) * scenTerminal (sailEfficiency damage) := by
  obtain ⟨-, -, hx, hz⟩ := scen_closed damage hs0 hs1 env n
  simp only [hSpeed]
  rw [hx, hz]
  have hd1 : ((931 : ℝ) / 1000) ^ n ≤ 1 := pow_le_one₀ (by norm_num) (by norm_num)
  have hb0 : (0 : ℝ) ≤ 1 - (931 / 1000 : ℝ) ^ n := by linarith
  have key : ((1 - (931 / 1000 : ℝ) ^ n) * (931 / 69 * (sailEfficiency damage * scenCx))) ^ 2 +
      ((1 - (931 / 1000 : ℝ) ^ n) * (931 / 69 * (sailEfficiency damage * scenCz))) ^ 2
      = ((1 - (931 / 1000 : ℝ) ^ n) * (931 / 69) * sailEfficiency damage) ^ 2 *
          (scenCx ^ 2 + scenCz ^ 2) := by
    ring
  have hnn : 0 ≤ (1 - (931 / 1000 : ℝ) ^ n) * (931 / 69) * sailEfficiency damage :=
    mul_nonneg (mul_nonneg hb0 (by norm_num)) hs0
  rw [key, scenCsq, Real.sqrt_mul (sq_nonneg _), Real.sqrt_sq hnn]
  simp only [scenTerminal]
  ring

theorem scen_tendsto (damage : ShipDamage) (hs0 : 0 ≤ sailEfficiency damage)
    (hs1 : sailEfficiency damage ≤ 1) (env : ℕ → EnvSample) :
    Tendsto (fun n => hSpeed (scenSeq damage env n).velocity) atTop
      (nhds (scenTerminal (sailEfficiency damage))) := by
  have heq : (fun n => hSpeed (scenSeq damage env n).velocity)
      = fun n => (1 - (931 / 1000 : ℝ) ^ n) * scenTerminal (sailEfficiency damage) :=
    funext fun n => scen_speed damage hs0 hs1 env n
  rw [heq]
  have hd : Tendsto (fun n : ℕ => ((931 : ℝ) / 1000) ^ n) atTop (nhds 0) :=
    tendsto_pow_atTop_nhds_zero_of_lt_one (by norm_num) (by norm_num)
  have hc : Tendsto (fun _ : ℕ => (1 : ℝ)) atTop (nhds 1) := tendsto_const_nhds
  have h := (hc.sub hd).mul_const (scenTerminal (sailEfficiency damage))
  simpa using h

theorem sailEff_full : sailEfficiency fullDamage = 1 := by
  norm_num [sailEfficiency, fullDamage]

theorem sailEff_sailHalf : sailEfficiency sailHalfDamage = 1 / 2 := by
  norm_num [sailEfficiency, sailHalfDamage]

theorem sailEff_mastHalf : sailEfficiency mastHalfDamage = 1 / 2 := by
  norm_num [sailEfficiency, mastHalfDamage]

theorem sailEff_hullHalf : sailEfficiency hullHalfDamage = 1 := by
  norm_num [sailEfficiency, hullHalfDamage]

theorem sailEff_rudderHalf : sailEfficiency rudderHalfDamage = 1 := by
  norm_num [sailEfficiency, rudderHalfDamage]

/-- C6 (counterexample): in the optimal point-of-sail scenario (Sloop,
wind 0/ModerateBreeze, heading 100° off the wind, forward held), halving
`hullIntegrity` leaves the horizontal speed identical at every frame — the
buoyant force it scales is vertical — so both runs converge to the same
strictly positive terminal speed, and the undamaged ship's terminal speed is
not strictly higher. -/
theorem hull_damage_same_terminal :
    (fun n => hSpeed (scenSeq hullHalfDamage envZero n).velocity)
      = (fun n => hSpeed (scenSeq fullDamage envZero n).velocity) ∧
    Tendsto (fun n => hSpeed (scenSeq hullHalfDamage envZero n).velocity) atTop
      (nhds (scenTerminal 1)) ∧
    Tendsto (fun n => hSpeed (scenSeq fullDamage envZero n).velocity) atTop
      (nhds (scenTerminal 1)) ∧
    0 < scenTerminal 1 := by
  have h1 : ∀ env n, hSpeed (scenSeq hullHalfDamage env n).velocity
      = hSpeed (scenSeq fullDamage env n).velocity := by
    intro env n
    rw [scen_speed hullHalfDamage (by rw [sailEff_hullHalf]; norm_num)
        (le_of_eq sailEff_hullHalf) env n,
      scen_speed fullDamage (by rw [sailEff_full]; norm_num) (le_of_eq sailEff_full) env n,
      sailEff_hullHalf, sailEff_full]
  have h2 : Tendsto (fun n => hSpeed (scenSeq fullDamage envZero n).velocity) atTop
      (nhds (scenTerminal 1)) := by
    have := scen_tendsto fullDamage (by rw [sailEff_full]; norm_num)
      (le_of_eq sailEff_full) envZero
    rwa [sailEff_full] at this
  have hpos : 0 < scenTerminal 1 := by
    simp only [scenTerminal]
    have hU : 0 < Real.sqrt ((1 / 50) ^ 2 + (171 / 200000) ^ 2 * Real.cos (5 * π / 9) ^ 2) :=
      Real.sqrt_pos.mpr (by positivity)
    nlinarith
  refine ⟨funext fun n => h1 envZero n, ?_, h2, hpos⟩
  have heq : (fun n => hSpeed (scenSeq hullHalfDamage envZero n).velocity)
      = fun n => hSpeed (scenSeq fullDamage envZero n).velocity :=
    funext fun n => h1 envZero n
  rw [heq]
  exact h2

/-- C6 (amended): in the optimal point-of-sail scenario, halving sail or
mast integrity halves the terminal horizontal speed (strictly lower than
undamaged), while halving hull or rudder integrity leaves the horizontal
speed of every frame — and hence the terminal speed — unchanged: hull
integrity only scales the vertical buoyant force and rudder integrity only
scales turn response, which the straight-line run never exercises. -/
theorem damage_terminal_speed :
    (∀ env, Tendsto (fun n => hSpeed (scenSeq fullDamage env n).velocity) atTop
      (nhds (scenTerminal 1))) ∧
    (∀ env, Tendsto (fun n => hSpeed (scenSeq sailHalfDamage env n).velocity) atTop
      (nhds (scenTerminal (1 / 2)))) ∧
    (∀ env, Tendsto (fun n => hSpeed (scenSeq mastHalfDamage env n).velocity) atTop
      (nhds (scenTerminal (1 / 2)))) ∧
    scenTerminal (1 / 2) < scenTerminal 1 ∧
    (∀ env n, hSpeed (scenSeq hullHalfDamage env n).velocity
      = hSpeed (scenSeq fullDamage env n).velocity) ∧
    (∀ env n, hSpeed (scenSeq rudderHalfDamage env n).velocity
      = hSpeed (scenSeq fullDamage env n).velocity) := by
  refine ⟨?_, ?_, ?_, ?_, ?_, ?_⟩
  · intro env
    have := scen_tendsto fullDamage (by rw [sailEff_full]; norm_num)
      (le_of_eq sailEff_full) env
    rwa [sailEff_full] at this
  · intro env
    have := scen_tendsto sailHalfDamage (by rw [sailEff_sailHalf]; norm_num)
      (by rw [sailEff_sailHalf]; norm_num) env
    rwa [sailEff_sailHalf] at this
  · intro env
    have := scen_tendsto mastHalfDamage (by rw [sailEff_mastHalf]; norm_num)
      (by rw [sailEff_mastHalf]; norm_num) env
    rwa [sailEff_mastHalf] at this
  · have hU : 0 < Real.sqrt ((1 / 50) ^ 2 + (171 / 200000) ^ 2 * Real.cos (5 * π / 9) ^ 2) :=
      Real.sqrt_pos.mpr (by positivity)
    simp only [scenTerminal]
    nlinarith
  · intro env n
    rw [scen_speed hullHalfDamage (by rw [sailEff_hullHalf]; norm_num)
        (le_of_eq sailEff_hullHalf) env n,
      scen_speed fullDamage (by rw [sailEff_full]; norm_num) (le_of_eq sailEff_full) env n,
      sailEff_hullHalf, sailEff_full]
  · intro env n
    rw [scen_speed rudderHalfDamage (by rw [sailEff_rudderHalf]; norm_num)
        (le_of_eq sailEff_rudderHalf) env n,
      scen_speed fullDamage (by rw [sailEff_full]; norm_num) (le_of_eq sailEff_full) env n,
      sailEff_rudderHalf, sailEff_full]

/-- C9: with `hullIntegrity = 0` the buoyancy force at every sample point —
submerged or not — is exactly the zero vector, and the visual sink depth at
`hullIntegrity = 0` is strictly greater than at `hullIntegrity = 1`. -/
theorem hullZero_buoyancy_and_sink (displacement waveHeight pointY : ℝ) :
    calculateBuoyancyForce displacement 0 waveHeight pointY = V3.zero ∧
    sinkDepth 1 < sinkDepth 0 := by
  constructor
  · simp only [calculateBuoyancyForce]
    split
    · rfl
    · show V3.mk 0 _ 0 = V3.zero
      simp [V3.zero]
  · simp only [sinkDepth]
    norm_num

end HighSeas
